import Mathlib

/-!
Verification development for the `website_analyzer` repository
(`src/main.py`).  The Python source is shallowly embedded:

* Python strings are Lean `String`s; case-insensitive substring tests are
  modelled over `List Char` (the source only lower-cases ASCII keywords).
* `random.randint`, `random.uniform` and `random.choice` are modelled by an
  explicit pseudo-random source `Rng`: an abstract stream of naturals plus a
  cursor.  Every draw consumes exactly one stream element, in the same order
  as the Python call sites.
* Python floats are modelled as integers in units of 1/1000 ("milli"):
  `0.55` is `550`, `1.0` is `1000`.  `random.uniform a b` draws one of 1000
  equally spaced milli values of `[a, b)`; `round(x, 2)` becomes rounding to
  a multiple of 10 milli; Python `int(...)` truncation is `Int.tdiv`.
* Fallible code returns `Option`: `generate_ai_analysis` yields `none`
  exactly where the Python function would raise `UnboundLocalError`
  (a depth string containing none of the three depth emojis).
* The wall-clock `analysis_timestamp` field is outside the model and the
  prose payloads of the canned recommendation/snippet tables are represented
  by their title/question strings; their selection logic (keyed lookup with
  defaults, conditional appends) is embedded faithfully.
-/

/-! ### String utilities (lower-casing and substring occurrence) -/

/-- `beginsWith pre l` is true when the char list `l` starts with `pre`. -/
def beginsWith : List Char → List Char → Bool
  | [], _ => true
  | _ :: _, [] => false
  | a :: as, b :: bs => a == b && beginsWith as bs

/-- `occursIn needle hay`: `needle` occurs contiguously inside `hay`
(Python's `needle in hay` on strings). -/
def occursIn (needle : List Char) : List Char → Bool
  | [] => needle.isEmpty
  | c :: rest => beginsWith needle (c :: rest) || occursIn needle rest

/-- Python `str.lower()` (the source only needs ASCII). -/
def toLowerList (cs : List Char) : List Char := cs.map Char.toLower

/-- Single-character containment, `emoji in depth` in the source. -/
def charIn (c : Char) (cs : List Char) : Bool := cs.any (· == c)

/-- Everything before the first occurrence of a separator;
Python `s.split(sep)[0]`. -/
def takeUntilSep (sep : List Char) : List Char → List Char
  | [] => []
  | c :: rest =>
      if beginsWith sep (c :: rest) then [] else c :: takeUntilSep sep rest

/-! ### The random source -/

/-- Abstract pseudo-random source: a stream of naturals and a cursor.
Each primitive draw consumes one stream element. -/
structure Rng where
  stream : Nat → Nat
  idx : Nat

/-- `random.randint a b` (both endpoints inclusive, `a ≤ b` at call sites). -/
def randint (a b : Int) (r : Rng) : Int × Rng :=
  (a + ((r.stream r.idx % (b - a + 1).toNat : Nat) : Int),
   ⟨r.stream, r.idx + 1⟩)

/-- `random.uniform a b` in milli units: one of 1000 evenly spaced values
of `[a, b)` (endpoints in milli). -/
def uniformMilli (a b : Int) (r : Rng) : Int × Rng :=
  (a + (((b - a).toNat * (r.stream r.idx % 1000) / 1000 : Nat) : Int),
   ⟨r.stream, r.idx + 1⟩)

/-- `round(x, 2)` on a milli value: round to the nearest multiple of 10
(all call sites are nonnegative). -/
def roundTo2 (x : Int) : Int := (((x.toNat + 5) / 10 * 10 : Nat) : Int)

/-- `random.choice([True, False])`: stream element 0 picks `True`. -/
def pyChoiceBool (r : Rng) : Bool × Rng :=
  (r.stream r.idx % 2 == 0, ⟨r.stream, r.idx + 1⟩)

/-- `random.choice` on a nonempty string list (all call sites nonempty). -/
def pyChoice (xs : List String) (r : Rng) : String × Rng :=
  (xs.getD (r.stream r.idx % xs.length) "", ⟨r.stream, r.idx + 1⟩)

/-! ### Website-type classifier (`detect_website_type`, main.py 363-422) -/

/-- The category record returned by `detect_website_type`. -/
structure WebsiteType where
  type : String
  industry : String
  description : String
  entity_focus : List String
  schema_priority : List String
deriving DecidableEq

/-- One entry of the `patterns` table of `detect_website_type`. -/
structure PatternConfig where
  name : String
  keywords : List String
  entity_focus : List String
  schema_priority : List String
deriving DecidableEq

/-- Keyword list of the `'E-commerce / Retail'` pattern (main.py 371-372). -/
def commerceKeywords : List String :=
  ["shop", "store", "product", "buy", "cart", "checkout", "shoe", "footwear",
   "clothing", "apparel", "fashion", "bag", "accessory", "retail",
   "marketplace"]

/-- The `'E-commerce / Retail'` pattern, first entry of the dict
(main.py 370-375). -/
def ecommercePattern : PatternConfig :=
  { name := "E-commerce / Retail",
    keywords := commerceKeywords,
    entity_focus := ["Products", "Brands", "Categories", "Prices",
                     "Reviews", "Inventory"],
    schema_priority := ["Product", "Offer", "Review", "AggregateRating",
                        "Brand"] }

/-- The remaining entries of the `patterns` dict (main.py 376-400). -/
def patternsTail : List PatternConfig :=
  [{ name := "SaaS / Technology",
     keywords := ["saas", "software", "platform", "app", "cloud", "api",
                  "tech", "solution"],
     entity_focus := ["Features", "Pricing", "Integration", "Support",
                      "Documentation"],
     schema_priority := ["SoftwareApplication", "Product", "Organization",
                         "FAQ"] },
   { name := "Service Provider",
     keywords := ["service", "consulting", "agency", "solutions",
                  "professional", "digital"],
     entity_focus := ["Services", "Team", "Expertise", "Process", "Results"],
     schema_priority := ["Service", "Organization", "Person", "FAQ"] },
   { name := "Healthcare",
     keywords := ["health", "medical", "clinic", "doctor", "hospital",
                  "dental", "care"],
     entity_focus := ["Services", "Physicians", "Treatments", "Insurance",
                      "Locations"],
     schema_priority := ["MedicalBusiness", "Physician",
                         "MedicalProcedure"] },
   { name := "Real Estate",
     keywords := ["real", "estate", "property", "homes", "realty", "housing",
                  "apartments"],
     entity_focus := ["Listings", "Locations", "Agents", "Prices",
                      "Features"],
     schema_priority := ["RealEstateListing", "Place", "Organization"] },
   { name := "Content / Media",
     keywords := ["blog", "news", "magazine", "media", "publishing",
                  "editorial"],
     entity_focus := ["Articles", "Authors", "Topics", "Categories",
                      "Archives"],
     schema_priority := ["Article", "Person", "Organization",
                         "Breadcrumb"] }]

/-- The `patterns` dict of `detect_website_type`, in declaration order
(Python dicts iterate in insertion order). -/
def patterns : List PatternConfig := ecommercePattern :: patternsTail

/-- `kw in url_lower or kw in domain_lower` (main.py 406). -/
def keywordMatches (urlLower domainLower : List Char) (kw : String) : Bool :=
  occursIn kw.data urlLower || occursIn kw.data domainLower

/-- The default category returned when no keyword matches (main.py 416-422). -/
def defaultWebsiteType : WebsiteType :=
  { type := "Business Website",
    industry := "General Business",
    description := "corporate website",
    entity_focus := ["Company", "Services", "Contact", "About"],
    schema_priority := ["Organization", "LocalBusiness", "ContactPoint"] }

/-- `detect_website_type(url, domain)` (main.py 363-422): lower-case both
inputs, return the first pattern one of whose keywords occurs in either,
else the default category.  The record's `industry` is
`website_type.split(' / ')[0]` and `description` is
`f"\x7bwebsite_type.lower()\x7d business"`. -/
def detect_website_type (url domain : String) : WebsiteType :=
  let urlLower := toLowerList url.data
  let domainLower := toLowerList domain.data
  match patterns.find?
      (fun p => p.keywords.any (keywordMatches urlLower domainLower)) with
  | some p =>
      { type := p.name,
        industry := String.mk (takeUntilSep " / ".data p.name.data),
        description := String.mk (toLowerList p.name.data) ++ " business",
        entity_focus := p.entity_focus,
        schema_priority := p.schema_priority }
  | none => defaultWebsiteType

/-! ### Mock entity generation (`generate_entities`, main.py 424-530) -/

/-- One generated entity (main.py 521-528); `confidence` and `relevance`
are milli floats, already rounded to 2 decimals. -/
structure Entity where
  text : String
  type : String
  confidence : Int
  in_schema : Bool
  relevance : Int
  mentions : Int
deriving DecidableEq

/-- One entry of the `entity_templates` table. -/
structure EntityTemplate where
  types : List String
  names : List String
deriving DecidableEq

def ecommerceTemplate : EntityTemplate :=
  { types := ["PRODUCT", "BRAND", "CATEGORY", "OFFER", "REVIEW", "PRICE",
              "ATTRIBUTE"],
    names := ["Running Shoes", "Sneakers", "Boots", "Sandals",
              "Athletic Footwear",
              "Nike", "Adidas", "Puma", "Reebok", "New Balance",
              "Under Armour",
              "Free Shipping", "Discount", "Sale", "New Arrivals",
              "Best Sellers",
              "Customer Reviews", "Ratings", "Size Guide", "Returns Policy",
              "Men\x27s", "Women\x27s", "Kids", "Unisex", "Wide Width",
              "Leather", "Canvas", "Synthetic", "Waterproof"] }

def saasTemplate : EntityTemplate :=
  { types := ["FEATURE", "INTEGRATION", "PLAN", "PRODUCT", "SUPPORT", "API"],
    names := ["Analytics Dashboard", "Real-time Reporting", "API Access",
              "Cloud Storage", "Team Collaboration", "Security Features",
              "Starter Plan", "Professional Plan", "Enterprise Plan",
              "Slack Integration", "Salesforce Connector", "Zapier",
              "24/7 Support", "Knowledge Base", "Video Tutorials",
              "REST API", "Webhooks", "SDKs"] }

def serviceTemplate : EntityTemplate :=
  { types := ["SERVICE", "ORGANIZATION", "PERSON", "PROCESS",
              "CERTIFICATION", "RESULT"],
    names := ["Consulting", "Strategy", "Implementation", "Training",
              "Support",
              "Expert Team", "Certified Professionals", "Senior Consultants",
              "Discovery Phase", "Analysis", "Recommendations", "Execution",
              "ISO Certified", "Google Partner", "Microsoft Partner",
              "ROI Increase", "Cost Reduction", "Efficiency Gains"] }

def healthcareTemplate : EntityTemplate :=
  { types := ["SERVICE", "PHYSICIAN", "TREATMENT", "FACILITY", "INSURANCE"],
    names := ["Primary Care", "Urgent Care", "Preventive Care",
              "Diagnostics",
              "Dr. Smith", "Dr. Johnson", "Medical Staff", "Specialists",
              "Physical Therapy", "Surgery", "Medication", "Rehabilitation",
              "Modern Facilities", "Emergency Room", "Lab Services",
              "Insurance Accepted", "Medicare", "PPO Plans"] }

def realEstateTemplate : EntityTemplate :=
  { types := ["LISTING", "LOCATION", "FEATURE", "AGENT", "PRICE"],
    names := ["Single Family Home", "Condo", "Townhouse", "Luxury Estate",
              "Downtown", "Suburban", "Waterfront", "Golf Course",
              "Hardwood Floors", "Granite Counters", "Pool", "Garage",
              "Top Agent", "Broker", "Realtor of the Year",
              "Market Value", "Asking Price", "Price per sqft"] }

def mediaTemplate : EntityTemplate :=
  { types := ["ARTICLE", "AUTHOR", "TOPIC", "PUBLICATION", "CATEGORY"],
    names := ["Latest News", "Trends", "Analysis", "Opinion", "Research",
              "Editorial Team", "Senior Writer", "Contributors", "Columnist",
              "Technology", "Business", "Politics", "Entertainment",
              "Daily Edition", "Weekly Review", "Special Report",
              "Breaking News", "Features", "Investigative"] }

/-- The `entity_templates` dict (main.py 427-490), in declaration order. -/
def entity_templates : List (String × EntityTemplate) :=
  [("E-commerce / Retail", ecommerceTemplate),
   ("SaaS / Technology", saasTemplate),
   ("Service Provider", serviceTemplate),
   ("Healthcare", healthcareTemplate),
   ("Real Estate", realEstateTemplate),
   ("Content / Media", mediaTemplate)]

/-- `entity_templates.get(type, entity_templates.get('Service Provider', ...))`
(main.py 493-496): the `'Service Provider'` key is present, so the fallback
is the service template. -/
def templateFor (t : String) : EntityTemplate :=
  match entity_templates.find? (fun p => p.1 == t) with
  | some p => p.2
  | none => serviceTemplate

/-- The `depth_multipliers` count adjustment (main.py 502-511): first of
Basic/Advanced/Deep whose name occurs in the depth string scales the count
(`int(count * mult)` with multipliers 1.0, 1.5, 2.0); no match leaves the
count unchanged. -/
def adjustCount (count : Nat) (depth : String) : Nat :=
  if occursIn "Basic".data depth.data then count
  else if occursIn "Advanced".data depth.data then count * 3 / 2
  else if occursIn "Deep".data depth.data then count * 2
  else count

/-- Brand names that force a high-confidence redraw (main.py 518). -/
def brandList : List String := ["Nike", "Adidas", "Google", "Microsoft"]

/-- Build one entity (main.py 513-528), consuming draws in source order:
confidence, optional brand redraw, type choice, in-schema choice (only when
the unrounded confidence exceeds 0.7), relevance, mentions. -/
def mkEntity (name : String) (types : List String) (r0 : Rng) :
    Entity × Rng :=
  let c0p := uniformMilli 550 950 r0
  let cp : Int × Rng :=
    if brandList.any (fun b => occursIn b.data name.data) then
      uniformMilli 850 980 c0p.2
    else c0p
  let typ := pyChoice types cp.2
  let isp : Bool × Rng :=
    if cp.1 > 700 then pyChoiceBool typ.2 else (false, typ.2)
  let relp := uniformMilli 600 1000 isp.2
  let mp := if cp.1 > 700 then randint 1 50 relp.2 else randint 1 10 relp.2
  ({ text := name, type := typ.1, confidence := roundTo2 cp.1,
     in_schema := isp.1, relevance := roundTo2 relp.1,
     mentions := mp.1 }, mp.2)

/-- The entity loop of main.py 513-528 over the selected names. -/
def entitiesLoop (types : List String) :
    List String → Rng → List Entity × Rng
  | [], r => ([], r)
  | name :: rest, r =>
      let ep := mkEntity name types r
      let tail := entitiesLoop types rest ep.2
      (ep.1 :: tail.1, tail.2)

/-- `generate_entities(count, depth, website_type)` (main.py 424-530):
adjust the count by depth, then generate one entity per name for the first
`min(count, len(names))` names of the category's template. -/
def generate_entities (count : Int) (depth : String) (wt : WebsiteType)
    (r : Rng) : List Entity × Rng :=
  let tmpl := templateFor wt.type
  entitiesLoop tmpl.types (tmpl.names.take (adjustCount count.toNat depth)) r

/-! ### Canned text generators (selection logic of main.py 532-832),
payload records represented by their title/question strings. -/

/-- `generate_entity_recommendations` (main.py 532-669): category lookup
with `'Service Provider'` fallback, plus the universal FAQ item. -/
def generate_entity_recommendations (wt : WebsiteType) : List String :=
  (if wt.type == "E-commerce / Retail" then
    ["Implement Product Schema with Rich Attributes",
     "Create Product Comparison Tables",
     "Implement Review Schema at Scale"]
  else if wt.type == "SaaS / Technology" then
    ["Create Comprehensive Feature Documentation",
     "Implement Pricing Schema"]
  else
    ["Build Service Catalog with Schema",
     "Showcase Team Expertise"]) ++ ["Implement FAQ Schema"]

/-- `generate_featured_snippets` (main.py 671-748): category lookup with
`'E-commerce / Retail'` fallback. -/
def generate_featured_snippets (wt : WebsiteType) : List String :=
  if wt.type == "SaaS / Technology" then
    ["What integrations are available?",
     "How much does it cost?",
     "Is there a mobile app?"]
  else
    ["What sizes do these shoes come in?",
     "How long does shipping take?",
     "What is your return policy?",
     "How do I clean leather shoes?"]

/-- `generate_generative_recommendations` (main.py 749-832): three base
items plus type-specific appends keyed by substrings of the type name. -/
def generate_generative_recommendations (wt : WebsiteType) : List String :=
  ["Structure Content for AI Snapshots",
   "Optimize for Conversational Queries",
   "Establish Brand as Named Entity"] ++
  (if occursIn "E-commerce".data wt.type.data then
    ["Optimize for AI Shopping Features",
     "Optimize for Google Lens & AI Vision"]
  else if occursIn "SaaS".data wt.type.data
      || occursIn "Technology".data wt.type.data then
    ["Create AI-Readable Documentation"]
  else if occursIn "Service".data wt.type.data then
    ["Dominate \"Near Me\" Voice Searches"]
  else [])

/-! ### `AdvancedAnalyzer` pieces used by `generate_ai_analysis` -/

/-- Result of `analyze_content_structure` (main.py 218-254);
recommendation records represented by their titles. -/
structure ContentStructure where
  structure_score : Int
  headings : Int
  paragraphs : Int
  lists : Int
  tables : Int
  images_alt : Int
  internal_links : Int
  recommendations : List String
deriving DecidableEq

/-- `analyze_content_structure` (main.py 218-254): six independent draws,
overall score is the truncated mean, threshold-driven recommendations. -/
def analyze_content_structure (r : Rng) : ContentStructure × Rng :=
  let hp := randint 60 95 r
  let pp := randint 65 90 hp.2
  let lp := randint 50 85 pp.2
  let tp := randint 40 75 lp.2
  let ip := randint 45 80 tp.2
  let np := randint 55 90 ip.2
  ({ structure_score :=
      (hp.1 + pp.1 + lp.1 + tp.1 + ip.1 + np.1).tdiv 6,
     headings := hp.1, paragraphs := pp.1, lists := lp.1, tables := tp.1,
     images_alt := ip.1, internal_links := np.1,
     recommendations :=
      (if hp.1 < 70 then ["Improve Heading Hierarchy"] else []) ++
      (if ip.1 < 60 then ["Add Alt Text to Images"] else []) }, np.2)

/-- Result of `predict_sge_performance` (main.py 256-281). -/
structure Predictions where
  days30 : Int
  days60 : Int
  days90 : Int
  confidence : Int
deriving DecidableEq

/-- `predict_sge_performance(current_score, entity_count, schema_score)`
(main.py 256-281), in milli units: entity factor `(count/50)*15`, schema
factor `(score/100)*20`, a uniform trend draw from `[-5, 10]`, prediction
capped at 100; the 30/60/90-day figures are truncated blends. -/
def predict_sge_performance (cur ec ss : Int) (r : Rng) :
    Predictions × Rng :=
  let base := cur * 1000
  let tfp := uniformMilli (-5000) 10000 r
  let predicted := min 100000 (base + ec * 300 + ss * 200 + tfp.1)
  let cfp := randint 75 95 tfp.2
  ({ days30 := (predicted * 33 + base * 67).tdiv 100000,
     days60 := (predicted * 66 + base * 34).tdiv 100000,
     days90 := predicted.tdiv 1000,
     confidence := cfp.1 }, cfp.2)

/-- `generate_action_plan` (main.py 283-335): phases represented by their
names, appended under the source's score thresholds. -/
def generate_action_plan (schemaScore entityScore _aiScore : Int) :
    List String :=
  (if schemaScore < 50 then ["Quick Wins"] else []) ++
  (if entityScore < 60 then ["Foundation Building"] else []) ++
  ["Advanced Optimization"]

/-! ### `generate_ai_analysis` (main.py 834-937) -/

/-- One row of the `depth_config` dict (main.py 846-850). -/
structure DepthConfig where
  emoji : Char
  entities : Int × Int
  entity_score : Int × Int
  schema_score : Int × Int
deriving DecidableEq

/-- The Basic row of `depth_config` (main.py 847). -/
def basicConfig : DepthConfig := ⟨'🌱', (10, 20), (30, 45), (20, 35)⟩

/-- The Advanced row of `depth_config` (main.py 848). -/
def advancedConfig : DepthConfig := ⟨'🔬', (20, 35), (40, 55), (30, 45)⟩

/-- The Deep row of `depth_config` (main.py 849). -/
def deepConfig : DepthConfig := ⟨'🧬', (35, 55), (45, 65), (35, 55)⟩

/-- The `depth_config` dict, in declaration order. -/
def depth_config : List DepthConfig :=
  [basicConfig, advancedConfig, deepConfig]

/-- The three depth options offered by the sidebar radio (main.py 1352-1356);
these are the depth values `generate_ai_analysis` is called with. -/
def basicDepth : String := "🌱 Basic (Fast)"

def advancedDepth : String := "🔬 Advanced (Recommended)"

def deepDepth : String := "🧬 Deep (Comprehensive)"

/-- The `platform_bonus` dict (main.py 864-871), default bonus 0. -/
def platform_bonus : List (String × Int) :=
  [("Google SGE", 5), ("ChatGPT", 3), ("Bard", 4), ("Claude", 6),
   ("Perplexity", 7), ("Copilot", 2)]

def bonusFor (p : String) : Int :=
  match platform_bonus.find? (fun q => q.1 == p) with
  | some q => q.2
  | none => 0

/-- The platform score loop (main.py 860-873): per platform one draw from
`[-10, 15]`, score clamped into `[25, 100]`. -/
def platformLoop (base : Int) : List String → Rng → List (String × Int) × Rng
  | [], r => ([], r)
  | p :: ps, r =>
      let dp := randint (-10) 15 r
      let tail := platformLoop base ps dp.2
      ((p, min 100 (max 25 (base + dp.1 + bonusFor p))) :: tail.1, tail.2)

/-- `urlparse(url).netloc` for a url starting with `http://` or `https://`:
the text after the scheme up to the first `/`, `?` or `#`;
other strings are returned unchanged (main.py 837). -/
def netlocChars (cs : List Char) : List Char :=
  cs.takeWhile (fun c => !(c == '/' || c == '?' || c == '#'))

def dropPrefixChars : List Char → List Char → Option (List Char)
  | [], rest => some rest
  | _ :: _, [] => none
  | a :: as, b :: bs => if a == b then dropPrefixChars as bs else none

def pyDomain (url : String) : String :=
  match dropPrefixChars "https://".data url.data with
  | some rest => String.mk (netlocChars rest)
  | none =>
    match dropPrefixChars "http://".data url.data with
    | some rest => String.mk (netlocChars rest)
    | none => url

/-- The `descriptions` dict of `generate_ai_analysis` (main.py 882-900):
(current, optimized) description pair keyed by category, with a default. -/
def descFor (t domain : String) : String × String :=
  if t == "E-commerce / Retail" then
    (domain ++ " appears to be an online retail store. Product schema implementation is incomplete (missing 60% of recommended fields). Customer review aggregation absent. Size/variant information not structured.",
     domain ++ " is a premier e-commerce destination offering an extensive curated collection. Every product features comprehensive specifications, verified customer reviews, real-time inventory status, and detailed size guides with fit recommendations.")
  else if t == "SaaS / Technology" then
    (domain ++ " is a software platform. Missing SoftwareApplication schema and detailed feature documentation. Pricing information not marked up. Integration catalog incomplete.",
     domain ++ " is an innovative SaaS platform delivering powerful solutions for modern businesses. Features comprehensive API documentation, transparent pricing across all tiers, 100+ integrations, and award-winning customer support.")
  else if t == "Service Provider" then
    (domain ++ " appears to be a service business. Service schema absent. Team member credentials not highlighted. Case studies lack structured data.",
     domain ++ " is a leading professional services firm specializing in transformative solutions. Our certified expert team delivers measurable ROI through proven methodologies, backed by 500+ successful client engagements.")
  else
    (domain ++ " is a business website. Essential Organization and LocalBusiness schema missing. Contact information not properly marked up.",
     domain ++ " is an established industry leader providing exceptional solutions. Our commitment to innovation, quality, and customer success drives everything we do.")

/-- `entity_confidence`/`ai_confidence` (main.py 879, 922):
`int(mean(confidence) * 100)` over the produced entities, `int(0.6 * 100)`
when the list is empty; confidences are in milli. -/
def entityConfidenceTimes100 (es : List Entity) : Int :=
  if es.isEmpty then 60
  else ((es.map Entity.confidence).sum).tdiv (10 * es.length)

/-- The record assembled by `generate_ai_analysis` (main.py 912-937);
`analysis_timestamp` (wall clock) is outside the model. -/
structure AnalysisResult where
  url : String
  domain : String
  website_type : WebsiteType
  ai_visibility_score : Int
  entity_score : Int
  entity_count : Int
  schema_score : Int
  schema_types : Int
  sge_score : Int
  ai_confidence : Int
  improvement_potential : Int
  platform_scores : List (String × Int)
  entities : List Entity
  entity_recommendations : List String
  kg_present : List String
  kg_missing : List String
  ai_description : String
  optimized_description : String
  featured_snippets : List String
  generative_recommendations : List String
  content_structure : ContentStructure
  predictions : Predictions
  action_plan : List String
deriving DecidableEq

/-- Body of `generate_ai_analysis` after the depth lookup succeeded, with
draws in source order: entity count, entity score, schema score, platform
loop, entities, content structure, prediction trend, then the three dict
literal draws (schema types, SGE score, improvement potential). -/
def buildResult (url depth : String) (platforms : List String)
    (cfg : DepthConfig) (baseScore : Int) (r0 : Rng) : AnalysisResult :=
  let domain := pyDomain url
  let wt := detect_website_type url domain
  let ecp := randint cfg.entities.1 cfg.entities.2 r0
  let esp := randint cfg.entity_score.1 cfg.entity_score.2 ecp.2
  let ssp := randint cfg.schema_score.1 cfg.schema_score.2 esp.2
  let psp := platformLoop baseScore platforms ssp.2
  let entp := generate_entities ecp.1 depth wt psp.2
  let csp := analyze_content_structure entp.2
  let prp := predict_sge_performance baseScore ecp.1 ssp.1 csp.2
  let stp := randint 1 7 prp.2
  let sgp := randint 35 65 stp.2
  let imp := randint 35 55 sgp.2
  { url := url, domain := domain, website_type := wt,
    ai_visibility_score := baseScore,
    entity_score := esp.1,
    entity_count := ecp.1,
    schema_score := ssp.1,
    schema_types := stp.1,
    sge_score := sgp.1,
    ai_confidence := entityConfidenceTimes100 entp.1,
    improvement_potential := imp.1,
    platform_scores := psp.1,
    entities := entp.1,
    entity_recommendations := generate_entity_recommendations wt,
    kg_present := wt.entity_focus.take 3,
    kg_missing := wt.schema_priority,
    ai_description := (descFor wt.type domain).1,
    optimized_description := (descFor wt.type domain).2,
    featured_snippets := generate_featured_snippets wt,
    generative_recommendations := generate_generative_recommendations wt,
    content_structure := csp.1,
    predictions := prp.1,
    action_plan := generate_action_plan ssp.1 esp.1 baseScore }

/-- `generate_ai_analysis(url, depth, platforms)` (main.py 834-937).
`none` models the Python `UnboundLocalError` raised when no depth emoji
occurs in `depth` (the scores drawn before the failing line do not affect
the outcome, so they are elided on that branch). -/
def generate_ai_analysis (url depth : String) (platforms : List String)
    (r : Rng) : Option AnalysisResult :=
  let bp := randint 45 75 r
  match depth_config.find? (fun c => charIn c.emoji depth.data) with
  | none => none
  | some cfg => some (buildResult url depth platforms cfg bp.1 bp.2)

/-- The analyze-button flow of the UI (main.py 1427-1469): prepend
`https://` when the scheme is missing, then run `generate_ai_analysis`.
The sidebar API key (main.py 1334-1343) is captured but never consulted by
the analysis, so it is an inert parameter. -/
def analyze_button_flow (url : String) (_apiKey : Option String)
    (depth : String) (platforms : List String) (r : Rng) :
    Option AnalysisResult :=
  let fullUrl :=
    if beginsWith "http://".data url.data
        || beginsWith "https://".data url.data then url
    else "https://" ++ url
  generate_ai_analysis fullUrl depth platforms r

def rngZero : Rng := ⟨fun _ => 0, 0⟩

def rngOnes : Rng := ⟨fun _ => 1, 0⟩

/-- Stream whose first draw is 380: the first confidence draw is then
0.55 + 0.4 * 0.380 = 0.702, just above the 0.7 in-schema guard. -/
def rngC9 : Rng := ⟨fun i => if i == 0 then 380 else 0, 0⟩

/-! ### Bounds for the random primitives -/

lemma randint_bounds (a b : Int) (r : Rng) (h : a ≤ b) :
    a ≤ (randint a b r).1 ∧ (randint a b r).1 ≤ b := by
  unfold randint
  have hpos : 0 < (b - a + 1).toNat := by omega
  have hlt : r.stream r.idx % (b - a + 1).toNat < (b - a + 1).toNat :=
    Nat.mod_lt _ hpos
  have h0 : (0 : Int) ≤ ((r.stream r.idx % (b - a + 1).toNat : Nat) : Int) :=
    Int.ofNat_nonneg _
  have h1 : ((r.stream r.idx % (b - a + 1).toNat : Nat) : Int)
      < (((b - a + 1).toNat : Nat) : Int) := by exact_mod_cast hlt
  dsimp only
  omega

lemma uniformMilli_bounds (a b : Int) (r : Rng) (h : a ≤ b) :
    a ≤ (uniformMilli a b r).1 ∧ (uniformMilli a b r).1 ≤ b := by
  unfold uniformMilli
  have hk : r.stream r.idx % 1000 < 1000 := Nat.mod_lt _ (by norm_num)
  have hdiv : (b - a).toNat * (r.stream r.idx % 1000) / 1000
      ≤ (b - a).toNat := by
    calc (b - a).toNat * (r.stream r.idx % 1000) / 1000
        ≤ (b - a).toNat * 1000 / 1000 :=
          Nat.div_le_div_right (Nat.mul_le_mul_left _ (Nat.le_of_lt hk))
      _ = (b - a).toNat := by omega
  have h0 : (0 : Int)
      ≤ (((b - a).toNat * (r.stream r.idx % 1000) / 1000 : Nat) : Int) :=
    Int.ofNat_nonneg _
  have h1 : (((b - a).toNat * (r.stream r.idx % 1000) / 1000 : Nat) : Int)
      ≤ (((b - a).toNat : Nat) : Int) := by exact_mod_cast hdiv
  dsimp only
  omega

lemma roundTo2_mono {x y : Int} (h : x ≤ y) : roundTo2 x ≤ roundTo2 y := by
  unfold roundTo2
  have h1 : x.toNat ≤ y.toNat := by omega
  have h2 : (x.toNat + 5) / 10 ≤ (y.toNat + 5) / 10 :=
    Nat.div_le_div_right (by omega)
  exact_mod_cast Nat.mul_le_mul_right 10 h2

lemma tdiv_nat_cast (s m : Nat) :
    ((s : Int)).tdiv (m : Int) = ((s / m : Nat) : Int) := rfl

lemma tdiv_bounds_of_nonneg (x : Int) (m bound : Nat) (hm : 0 < m)
    (hx0 : 0 ≤ x) (hxu : x < ((bound + 1 : Nat) : Int) * (m : Int)) :
    0 ≤ x.tdiv (m : Int) ∧ x.tdiv (m : Int) ≤ (bound : Int) := by
  obtain ⟨s, rfl⟩ := Int.eq_ofNat_of_zero_le hx0
  rw [tdiv_nat_cast]
  refine ⟨Int.ofNat_nonneg _, ?_⟩
  have hs : s < (bound + 1) * m := by exact_mod_cast hxu
  have hlt := (Nat.div_lt_iff_lt_mul hm).mpr hs
  exact_mod_cast Nat.lt_succ_iff.mp hlt

/-! ### Structural lemmas about the generators -/

lemma mkEntity_props (name : String) (types : List String) (r : Rng) :
    550 ≤ (mkEntity name types r).1.confidence ∧
    (mkEntity name types r).1.confidence ≤ 980 ∧
    600 ≤ (mkEntity name types r).1.relevance ∧
    (mkEntity name types r).1.relevance ≤ 1000 ∧
    ((mkEntity name types r).1.in_schema = true →
      700 ≤ (mkEntity name types r).1.confidence) := by
  unfold mkEntity
  by_cases hb : brandList.any (fun b => occursIn b.data name.data) = true
  all_goals simp only [hb, if_true, if_false, Bool.false_eq_true, ite_true,
    ite_false, eq_self_iff_true]
  case pos =>
    have hc := uniformMilli_bounds 850 980 (uniformMilli 550 950 r).2
      (by norm_num)
    set c := (uniformMilli 850 980 (uniformMilli 550 950 r).2).1 with hcdef
    refine ⟨?_, ?_, ?_, ?_, ?_⟩
    · calc (550 : Int) ≤ roundTo2 850 := by decide
        _ ≤ roundTo2 c := roundTo2_mono hc.1
    · calc roundTo2 c ≤ roundTo2 980 := roundTo2_mono hc.2
        _ ≤ 980 := by decide
    · calc (600 : Int) = roundTo2 600 := by decide
        _ ≤ roundTo2 (uniformMilli 600 1000 _).1 :=
          roundTo2_mono (uniformMilli_bounds 600 1000 _ (by norm_num)).1
    · calc roundTo2 (uniformMilli 600 1000 _).1 ≤ roundTo2 1000 :=
          roundTo2_mono (uniformMilli_bounds 600 1000 _ (by norm_num)).2
        _ = 1000 := by decide
    · intro _
      calc (700 : Int) = roundTo2 701 := by decide
        _ ≤ roundTo2 c := roundTo2_mono (by omega)
  case neg =>
    have hc := uniformMilli_bounds 550 950 r (by norm_num)
    set c := (uniformMilli 550 950 r).1 with hcdef
    refine ⟨?_, ?_, ?_, ?_, ?_⟩
    · calc (550 : Int) = roundTo2 550 := by decide
        _ ≤ roundTo2 c := roundTo2_mono hc.1
    · calc roundTo2 c ≤ roundTo2 950 := roundTo2_mono hc.2
        _ ≤ 980 := by decide
    · calc (600 : Int) = roundTo2 600 := by decide
        _ ≤ roundTo2 (uniformMilli 600 1000 _).1 :=
          roundTo2_mono (uniformMilli_bounds 600 1000 _ (by norm_num)).1
    · calc roundTo2 (uniformMilli 600 1000 _).1 ≤ roundTo2 1000 :=
          roundTo2_mono (uniformMilli_bounds 600 1000 _ (by norm_num)).2
        _ = 1000 := by decide
    · by_cases h7 : c > 700
      · intro _
        calc (700 : Int) = roundTo2 701 := by decide
          _ ≤ roundTo2 c := roundTo2_mono (by omega)
      · rw [if_neg h7]
        intro hfalse
        exact absurd hfalse (by simp)

lemma entitiesLoop_props (types : List String) :
    ∀ (names : List String) (r : Rng) (e : Entity),
      e ∈ (entitiesLoop types names r).1 →
      550 ≤ e.confidence ∧ e.confidence ≤ 980 ∧
      600 ≤ e.relevance ∧ e.relevance ≤ 1000 ∧
      (e.in_schema = true → 700 ≤ e.confidence)
  | [], _, e, h => by simp [entitiesLoop] at h
  | name :: rest, r, e, h => by
      simp only [entitiesLoop, List.mem_cons] at h
      rcases h with rfl | h
      · exact mkEntity_props name types r
      · exact entitiesLoop_props types rest (mkEntity name types r).2 e h

lemma entitiesLoop_length (types : List String) :
    ∀ (names : List String) (r : Rng),
      (entitiesLoop types names r).1.length = names.length
  | [], _ => rfl
  | _ :: rest, r => by
      simp only [entitiesLoop, List.length_cons]
      rw [entitiesLoop_length types rest]

lemma generate_entities_props (count : Int) (depth : String)
    (wt : WebsiteType) (r : Rng) :
    ∀ e ∈ (generate_entities count depth wt r).1,
      550 ≤ e.confidence ∧ e.confidence ≤ 980 ∧
      600 ≤ e.relevance ∧ e.relevance ≤ 1000 ∧
      (e.in_schema = true → 700 ≤ e.confidence) := by
  intro e he
  unfold generate_entities at he
  exact entitiesLoop_props _ _ _ e he

lemma templateFor_names_le (t : String) :
    (templateFor t).names.length ≤ 29 := by
  unfold templateFor
  cases h : entity_templates.find? (fun p => p.1 == t) with
  | none => decide
  | some p =>
      have hm := List.mem_of_find?_eq_some h
      fin_cases hm <;> decide

lemma generate_entities_length_le (count : Int) (depth : String)
    (wt : WebsiteType) (r : Rng) :
    (generate_entities count depth wt r).1.length ≤ 29 := by
  unfold generate_entities
  rw [entitiesLoop_length, List.length_take]
  exact le_trans (min_le_right _ _) (templateFor_names_le _)

lemma sum_conf_le (es : List Entity)
    (h : ∀ e ∈ es, e.confidence ≤ 980) :
    (es.map Entity.confidence).sum ≤ 980 * es.length := by
  induction es with
  | nil => simp
  | cons a t ih =>
      simp only [List.map_cons, List.sum_cons, List.length_cons]
      have ha := h a (by simp)
      have ht := ih (fun e he => h e (by simp [he]))
      push_cast
      omega

lemma sum_conf_nonneg (es : List Entity)
    (h : ∀ e ∈ es, 550 ≤ e.confidence) :
    0 ≤ (es.map Entity.confidence).sum := by
  induction es with
  | nil => simp
  | cons a t ih =>
      simp only [List.map_cons, List.sum_cons]
      have ha := h a (by simp)
      have ht := ih (fun e he => h e (by simp [he]))
      omega

lemma entityConfidenceTimes100_bounds (es : List Entity)
    (h : ∀ e ∈ es, 550 ≤ e.confidence ∧ e.confidence ≤ 980) :
    0 ≤ entityConfidenceTimes100 es ∧ entityConfidenceTimes100 es ≤ 100 := by
  unfold entityConfidenceTimes100
  cases hes : es with
  | nil => simp
  | cons a t =>
      simp only [List.isEmpty_cons, Bool.false_eq_true, if_false, ite_false]
      rw [← hes]
      have hn : 0 < es.length := by rw [hes]; simp
      have hsum0 : 0 ≤ (es.map Entity.confidence).sum :=
        sum_conf_nonneg es (fun e he => (h e he).1)
      have hsum : (es.map Entity.confidence).sum ≤ 980 * es.length :=
        sum_conf_le es (fun e he => (h e he).2)
      have h10 : ((10 * es.length : Nat) : Int) = 10 * (es.length : Int) := by
        push_cast; ring
      rw [← h10]
      refine tdiv_bounds_of_nonneg _ _ _ (by omega) hsum0 ?_
      have : ((100 + 1 : Nat) : Int) = 101 := by norm_num
      rw [this]
      have hcast : ((10 * es.length : Nat) : Int) = 10 * (es.length : Int) :=
        h10
      rw [hcast]
      have hlen : (1 : Int) ≤ (es.length : Int) := by exact_mod_cast hn
      nlinarith

lemma platformLoop_mem_bounds (base : Int) :
    ∀ (ps : List String) (r : Rng) (q : String × Int),
      q ∈ (platformLoop base ps r).1 → 25 ≤ q.2 ∧ q.2 ≤ 100
  | [], _, q, h => by simp [platformLoop] at h
  | p :: ps, r, q, h => by
      simp only [platformLoop, List.mem_cons] at h
      rcases h with rfl | h
      · exact ⟨le_min (by norm_num) (le_max_left _ _), min_le_left _ _⟩
      · exact platformLoop_mem_bounds base ps _ q h

lemma platformLoop_keys (base : Int) :
    ∀ (ps : List String) (r : Rng),
      (platformLoop base ps r).1.map Prod.fst = ps
  | [], _ => rfl
  | p :: ps, r => by
      simp only [platformLoop, List.map_cons]
      rw [platformLoop_keys base ps]

lemma predict_bounds (cur ec ss : Int) (r : Rng)
    (h1 : 45 ≤ cur) (h2 : cur ≤ 75) (h3 : 0 ≤ ec) (h4 : ec ≤ 55)
    (h5 : 0 ≤ ss) (h6 : ss ≤ 55) :
    (0 ≤ (predict_sge_performance cur ec ss r).1.days30 ∧
      (predict_sge_performance cur ec ss r).1.days30 ≤ 100) ∧
    (0 ≤ (predict_sge_performance cur ec ss r).1.days60 ∧
      (predict_sge_performance cur ec ss r).1.days60 ≤ 100) ∧
    (0 ≤ (predict_sge_performance cur ec ss r).1.days90 ∧
      (predict_sge_performance cur ec ss r).1.days90 ≤ 100) ∧
    (0 ≤ (predict_sge_performance cur ec ss r).1.confidence ∧
      (predict_sge_performance cur ec ss r).1.confidence ≤ 100) := by
  unfold predict_sge_performance
  dsimp only
  have htf := uniformMilli_bounds (-5000) 10000 r (by norm_num)
  set tf := (uniformMilli (-5000) 10000 r).1 with htfdef
  set pred := min 100000 (cur * 1000 + ec * 300 + ss * 200 + tf) with hpdef
  have hp1 : 40000 ≤ pred := by
    rw [hpdef]
    exact le_min (by norm_num) (by omega)
  have hp2 : pred ≤ 100000 := min_le_left _ _
  have hcast : ∀ k : Nat, ((k + 1 : Nat) : Int) = (k : Int) + 1 := by
    intro k; push_cast; ring
  refine ⟨?_, ?_, ?_, ?_⟩
  · refine tdiv_bounds_of_nonneg _ 100000 100 (by norm_num) (by omega) ?_
    rw [hcast]
    norm_num
    omega
  · refine tdiv_bounds_of_nonneg _ 100000 100 (by norm_num) (by omega) ?_
    rw [hcast]
    norm_num
    omega
  · refine tdiv_bounds_of_nonneg _ 1000 100 (by norm_num) (by omega) ?_
    rw [hcast]
    norm_num
    omega
  · have := randint_bounds 75 95 (uniformMilli (-5000) 10000 r).2
      (by norm_num)
    omega

lemma depth_config_facts (cfg : DepthConfig) (h : cfg ∈ depth_config) :
    (10 ≤ cfg.entities.1 ∧ cfg.entities.1 ≤ cfg.entities.2 ∧
      cfg.entities.2 ≤ 55) ∧
    (30 ≤ cfg.entity_score.1 ∧ cfg.entity_score.1 ≤ cfg.entity_score.2 ∧
      cfg.entity_score.2 ≤ 65) ∧
    (20 ≤ cfg.schema_score.1 ∧ cfg.schema_score.1 ≤ cfg.schema_score.2 ∧
      cfg.schema_score.2 ≤ 55) := by
  fin_cases h <;> decide

lemma generate_eq_some {url depth : String} {platforms : List String}
    {r : Rng} {res : AnalysisResult}
    (h : generate_ai_analysis url depth platforms r = some res) :
    ∃ cfg, depth_config.find? (fun c => charIn c.emoji depth.data) = some cfg
      ∧ res = buildResult url depth platforms cfg (randint 45 75 r).1
          (randint 45 75 r).2 := by
  unfold generate_ai_analysis at h
  cases hf : depth_config.find? (fun c => charIn c.emoji depth.data) with
  | none => rw [hf] at h; simp at h
  | some cfg =>
      rw [hf] at h
      simp only [Option.some.injEq] at h
      exact ⟨cfg, rfl, h.symm⟩

/-! ### Claim C1 -/

/-- C1: for every url and domain whose lower-casing contains a commerce
keyword, `detect_website_type` returns the `'E-commerce / Retail'`
category: the commerce pattern is first in table order, so it wins over
every later category whose keywords may also occur. -/
theorem c1_commerce_keyword_first (url domain : String)
    (h : ∃ kw ∈ commerceKeywords,
      keywordMatches (toLowerList url.data) (toLowerList domain.data) kw
        = true) :
    (detect_website_type url domain).type = "E-commerce / Retail" := by
  obtain ⟨kw, hmem, hkw⟩ := h
  have hany : (ecommercePattern.keywords.any
      (keywordMatches (toLowerList url.data) (toLowerList domain.data)))
        = true := by
    rw [show ecommercePattern.keywords = commerceKeywords from rfl]
    exact List.any_eq_true.mpr ⟨kw, hmem, hkw⟩
  have hany2 : (fun p : PatternConfig => p.keywords.any
      (keywordMatches (toLowerList url.data) (toLowerList domain.data)))
        ecommercePattern = true := hany
  simp only [detect_website_type, patterns]
  rw [@List.find?_cons_of_pos PatternConfig
    (fun p => p.keywords.any
      (keywordMatches (toLowerList url.data) (toLowerList domain.data)))
    ecommercePattern patternsTail hany2]
  rfl

/-- C1 witness: an upper-cased commerce keyword (`shoe` inside
`SHOESTORE`) still selects the commerce category. -/
theorem c1_commerce_keyword_first_witness :
    (detect_website_type "https://SHOESTORE.com" "SHOESTORE.com").type
      = "E-commerce / Retail" :=
  c1_commerce_keyword_first "https://SHOESTORE.com" "SHOESTORE.com"
    ⟨"shoe", by decide, by decide⟩

/-! ### Claim C4 -/

/-- C4 counterexample: the claim restricts category names to four values,
but `"https://mysaas.com"` (keyword `saas`) is classified as
`'SaaS / Technology'`, which is none of the four. -/
theorem c4_counterexample_saas_category :
    ¬((detect_website_type "https://mysaas.com" "mysaas.com").type
        = "E-commerce / Retail" ∨
      (detect_website_type "https://mysaas.com" "mysaas.com").type
        = "Service Provider" ∨
      (detect_website_type "https://mysaas.com" "mysaas.com").type
        = "Content / Media" ∨
      (detect_website_type "https://mysaas.com" "mysaas.com").type
        = "Business Website") := by decide

/-- C4 amended: `detect_website_type` is total (it is a Lean function),
its category name is always one of SEVEN values (E-commerce / Retail,
SaaS / Technology, Service Provider, Healthcare, Real Estate,
Content / Media, Business Website), and every input matching no keyword
gets the default `'Business Website'` category. -/
theorem c4_total_seven_categories (url domain : String) :
    ((detect_website_type url domain).type = "E-commerce / Retail" ∨
     (detect_website_type url domain).type = "SaaS / Technology" ∨
     (detect_website_type url domain).type = "Service Provider" ∨
     (detect_website_type url domain).type = "Healthcare" ∨
     (detect_website_type url domain).type = "Real Estate" ∨
     (detect_website_type url domain).type = "Content / Media" ∨
     (detect_website_type url domain).type = "Business Website") ∧
    ((∀ p ∈ patterns, ∀ kw ∈ p.keywords,
        keywordMatches (toLowerList url.data) (toLowerList domain.data) kw
          = false) →
      detect_website_type url domain = defaultWebsiteType) := by
  constructor
  · simp only [detect_website_type]
    cases hf : patterns.find?
        (fun p => p.keywords.any
          (keywordMatches (toLowerList url.data)
            (toLowerList domain.data))) with
    | none => simp [defaultWebsiteType]
    | some p =>
        have hm := List.mem_of_find?_eq_some hf
        fin_cases hm <;> decide
  · intro hnone
    simp only [detect_website_type]
    rw [List.find?_eq_none.mpr ?_]
    · intro p hp
      have hall : ∀ kw ∈ p.keywords,
          ¬(keywordMatches (toLowerList url.data)
            (toLowerList domain.data) kw = true) := by
        intro kw hkw
        rw [hnone p hp kw hkw]
        simp
      simp only [List.any_eq_false.mpr hall]
      simp

/-! ### Claim C6 -/

/-- C6 counterexample: for `url="https://example-shoestore.com"` the claim
asserts industry `"Retail"`, but the code computes
`website_type.split(' / ')[0]`, which is `"E-commerce"`. -/
theorem c6_counterexample_industry :
    ¬((detect_website_type "https://example-shoestore.com"
        "example-shoestore.com").industry = "Retail") := by decide

/-- C6 amended: on `"https://example-shoestore.com"` classification yields
type `'E-commerce / Retail'` with industry `"E-commerce"` (not
`"Retail"`); at Advanced depth the generated `entity_count` lies in
`[20, 45]` (the source draws from `[20, 35]`) and `platform_scores` has
exactly one entry per requested platform name, in order. -/
theorem c6_shoestore_corrected (platforms : List String) (r : Rng)
    (res : AnalysisResult)
    (h : generate_ai_analysis "https://example-shoestore.com" advancedDepth
      platforms r = some res) :
    (detect_website_type "https://example-shoestore.com"
      "example-shoestore.com").type = "E-commerce / Retail" ∧
    (detect_website_type "https://example-shoestore.com"
      "example-shoestore.com").industry = "E-commerce" ∧
    (20 ≤ res.entity_count ∧ res.entity_count ≤ 45) ∧
    res.platform_scores.map Prod.fst = platforms := by
  obtain ⟨cfg, hfind, rfl⟩ := generate_eq_some h
  rw [show depth_config.find? (fun c => charIn c.emoji advancedDepth.data)
      = some advancedConfig from by decide] at hfind
  injection hfind with hcfg
  subst hcfg
  refine ⟨by decide, by decide, ?_, ?_⟩
  · simp only [buildResult, advancedConfig]
    have hec := randint_bounds 20 35 (randint 45 75 r).2 (by norm_num)
    exact ⟨hec.1, by omega⟩
  · simp only [buildResult]
    exact platformLoop_keys _ _ _

/-- C6 witness: the amended scenario evaluated on a concrete stream and a
two-platform request. -/
theorem c6_shoestore_corrected_witness :
    (detect_website_type "https://example-shoestore.com"
      "example-shoestore.com").type = "E-commerce / Retail" ∧
    (detect_website_type "https://example-shoestore.com"
      "example-shoestore.com").industry = "E-commerce" ∧
    (20 ≤ ((generate_ai_analysis "https://example-shoestore.com"
        advancedDepth ["Google SGE", "ChatGPT"] rngZero).get
          (by decide)).entity_count ∧
      ((generate_ai_analysis "https://example-shoestore.com" advancedDepth
        ["Google SGE", "ChatGPT"] rngZero).get
          (by decide)).entity_count ≤ 45) ∧
    ((generate_ai_analysis "https://example-shoestore.com" advancedDepth
      ["Google SGE", "ChatGPT"] rngZero).get
        (by decide)).platform_scores.map Prod.fst
      = ["Google SGE", "ChatGPT"] :=
  c6_shoestore_corrected ["Google SGE", "ChatGPT"] rngZero _
    ((Option.some_get (by decide)).symm)

/-! ### Claim C7 -/

/-- C7: the result handed to the presentation layer never depends on the
API key and always equals the mock generator's output on the normalized
url — in this source the sidebar key is captured but never consulted, so
the result is always the fully mocked one (never a partial merge). -/
theorem c7_result_independent_of_api_key (url : String)
    (key1 key2 : Option String) (depth : String) (platforms : List String)
    (r : Rng) :
    analyze_button_flow url key1 depth platforms r
        = analyze_button_flow url key2 depth platforms r ∧
    analyze_button_flow url key1 depth platforms r
        = generate_ai_analysis
            (if beginsWith "http://".data url.data
                || beginsWith "https://".data url.data then url
             else "https://" ++ url) depth platforms r :=
  ⟨rfl, rfl⟩

/-! ### Claim C8 -/

/-- C8: category selection is a pure function of the url (and the domain
derived from it): the `website_type` of any two generated analyses for the
same inputs agree regardless of the random stream, and both equal
`detect_website_type` on (url, netloc) — classification consumes no
randomness. -/
theorem c8_classification_pure (url depth : String)
    (platforms : List String) (g1 g2 : Rng) (r1 r2 : AnalysisResult)
    (h1 : generate_ai_analysis url depth platforms g1 = some r1)
    (h2 : generate_ai_analysis url depth platforms g2 = some r2) :
    r1.website_type = r2.website_type ∧
    r1.website_type = detect_website_type url (pyDomain url) := by
  obtain ⟨cfg1, hf1, rfl⟩ := generate_eq_some h1
  obtain ⟨cfg2, hf2, rfl⟩ := generate_eq_some h2
  constructor <;> simp only [buildResult]

/-- C8 witness: two different random streams on a fixed url produce the
same category record. -/
theorem c8_classification_pure_witness :
    ((generate_ai_analysis "https://shoestore.com" basicDepth []
        rngZero).get (by decide)).website_type
      = ((generate_ai_analysis "https://shoestore.com" basicDepth []
          rngOnes).get (by decide)).website_type ∧
    ((generate_ai_analysis "https://shoestore.com" basicDepth []
        rngZero).get (by decide)).website_type
      = detect_website_type "https://shoestore.com"
          (pyDomain "https://shoestore.com") :=
  c8_classification_pure "https://shoestore.com" basicDepth [] rngZero
    rngOnes _ _ ((Option.some_get (by decide)).symm)
    ((Option.some_get (by decide)).symm)

/-! ### Claim C3 -/

/-- C3: for each of the three depth options the UI offers (Basic, Advanced,
Deep — the radio strings of main.py 1354) and every url and platform list,
`generate_ai_analysis` produces a result and never hits the failure branch. -/
theorem c3_generate_total_on_depth_options (url : String)
    (platforms : List String) (r : Rng) (depth : String)
    (h : depth = basicDepth ∨ depth = advancedDepth ∨ depth = deepDepth) :
    (generate_ai_analysis url depth platforms r).isSome = true := by
  unfold generate_ai_analysis
  rcases h with rfl | rfl | rfl
  · rw [show depth_config.find? (fun c => charIn c.emoji basicDepth.data)
      = some basicConfig from by decide]
    rfl
  · rw [show depth_config.find? (fun c => charIn c.emoji advancedDepth.data)
      = some advancedConfig from by decide]
    rfl
  · rw [show depth_config.find? (fun c => charIn c.emoji deepDepth.data)
      = some deepConfig from by decide]
    rfl

/-- C3 witness: the Advanced option on a concrete url, platform list and
stream yields a result. -/
theorem c3_generate_total_witness :
    (generate_ai_analysis "https://example.com" advancedDepth ["Claude"]
      rngZero).isSome = true :=
  c3_generate_total_on_depth_options "https://example.com" ["Claude"]
    rngZero advancedDepth (Or.inr (Or.inl rfl))

/-! ### Claim C5 -/

/-- C5: for every category, the Deep sampling ranges are never narrower
than the Basic ones — floor and ceiling of the entity count, entity score
and schema score ranges are all monotone from Basic to Deep, and the
entity-count multiplier of `generate_entities` is monotone as well. -/
theorem c5_deep_ranges_not_narrower (_category : WebsiteType)
    (cb cd : DepthConfig)
    (hb : depth_config.find? (fun c => charIn c.emoji basicDepth.data)
      = some cb)
    (hd : depth_config.find? (fun c => charIn c.emoji deepDepth.data)
      = some cd) :
    (cb.entities.1 ≤ cd.entities.1 ∧ cb.entities.2 ≤ cd.entities.2) ∧
    (cb.entity_score.1 ≤ cd.entity_score.1 ∧
      cb.entity_score.2 ≤ cd.entity_score.2) ∧
    (cb.schema_score.1 ≤ cd.schema_score.1 ∧
      cb.schema_score.2 ≤ cd.schema_score.2) ∧
    (∀ n : Nat, adjustCount n basicDepth ≤ adjustCount n deepDepth) := by
  rw [show depth_config.find? (fun c => charIn c.emoji basicDepth.data)
      = some basicConfig from by decide] at hb
  rw [show depth_config.find? (fun c => charIn c.emoji deepDepth.data)
      = some deepConfig from by decide] at hd
  injection hb with hb1
  injection hd with hd1
  subst hb1
  subst hd1
  refine ⟨by decide, by decide, by decide, ?_⟩
  intro n
  unfold adjustCount
  rw [show occursIn "Basic".data basicDepth.data = true from by decide,
      show occursIn "Basic".data deepDepth.data = false from by decide,
      show occursIn "Advanced".data deepDepth.data = false from by decide,
      show occursIn "Deep".data deepDepth.data = true from by decide]
  simp only [if_true, Bool.false_eq_true, if_false, ite_true, ite_false]
  omega

/-- C5 witness: the range monotonicity at the two table rows actually
found for the Basic and Deep option strings. -/
theorem c5_deep_ranges_not_narrower_witness :
    (basicConfig.entities.1 ≤ deepConfig.entities.1 ∧
      basicConfig.entities.2 ≤ deepConfig.entities.2) ∧
    (basicConfig.entity_score.1 ≤ deepConfig.entity_score.1 ∧
      basicConfig.entity_score.2 ≤ deepConfig.entity_score.2) :=
  ⟨(c5_deep_ranges_not_narrower defaultWebsiteType basicConfig deepConfig
      (by decide) (by decide)).1,
   (c5_deep_ranges_not_narrower defaultWebsiteType basicConfig deepConfig
      (by decide) (by decide)).2.1⟩

/-! ### Claim C9 -/

/-- C9 counterexample: the guard for `in_schema` uses the UNROUNDED
confidence, while the stored confidence is rounded to 2 decimals.  A draw
of 0.702 passes the `> 0.7` guard, can set `in_schema = True`, and is then
stored as exactly 0.70 — so an entity with `in_schema = True` need not
have stored confidence strictly above 0.7 (700 milli). -/
theorem c9_counterexample_rounded_boundary :
    ¬(∀ e ∈ (generate_entities 1 basicDepth
        (detect_website_type "shop" "shop") rngC9).1,
      e.in_schema = true → 700 < e.confidence) := by decide

/-- C9 amended: every generated entity with `in_schema = True` has stored
confidence at least 0.7 (700 milli), and every entity with stored
confidence strictly below 0.7 has `in_schema = False`. -/
theorem c9_in_schema_confidence_amended (count : Int) (depth : String)
    (wt : WebsiteType) (r : Rng) (e : Entity)
    (he : e ∈ (generate_entities count depth wt r).1) :
    (e.in_schema = true → 700 ≤ e.confidence) ∧
    (e.confidence < 700 → e.in_schema = false) := by
  have h := generate_entities_props count depth wt r e he
  refine ⟨h.2.2.2.2, ?_⟩
  intro hlt
  cases hs : e.in_schema with
  | false => rfl
  | true => exact absurd (h.2.2.2.2 hs) (by omega)

/-- C9 witness: the amended invariant on the concrete boundary entity from
the counterexample stream (stored confidence exactly 0.70,
`in_schema = True`). -/
theorem c9_in_schema_confidence_witness :
    ((⟨"Running Shoes", "PRODUCT", 700, true, 600, 1⟩ : Entity).in_schema
        = true →
      700 ≤ (⟨"Running Shoes", "PRODUCT", 700, true, 600, 1⟩ :
        Entity).confidence) ∧
    ((⟨"Running Shoes", "PRODUCT", 700, true, 600, 1⟩ :
        Entity).confidence < 700 →
      (⟨"Running Shoes", "PRODUCT", 700, true, 600, 1⟩ : Entity).in_schema
        = false) :=
  c9_in_schema_confidence_amended 1 basicDepth
    (detect_website_type "shop" "shop") rngC9 _ (by decide)

/-! ### Claim C10 -/

lemma length_cast_lt_of_le_29 (l : List Entity) (x : Int)
    (h1 : l.length ≤ 29) (h2 : 35 ≤ x) : (l.length : Int) < x := by
  have : (l.length : Int) ≤ 29 := by exact_mod_cast h1
  omega

/-- C10: at Deep depth the entities list is capped by the per-category
name-table length (at most 29 for every category), while `entity_count` is
drawn independently from `[35, 55]`, so the reported `entity_count` always
strictly exceeds the number of entities actually present. -/
theorem c10_deep_count_exceeds_entities (url : String)
    (platforms : List String) (r : Rng) (res : AnalysisResult)
    (h : generate_ai_analysis url deepDepth platforms r = some res) :
    res.entities.length ≤ 29 ∧ 35 ≤ res.entity_count ∧
    res.entity_count ≤ 55 ∧
    (res.entities.length : Int) < res.entity_count := by
  obtain ⟨cfg, hfind, rfl⟩ := generate_eq_some h
  rw [show depth_config.find? (fun c => charIn c.emoji deepDepth.data)
      = some deepConfig from by decide] at hfind
  injection hfind with hcfg
  subst hcfg
  simp only [buildResult, deepConfig]
  refine ⟨generate_entities_length_le _ _ _ _, ?_, ?_, ?_⟩
  · exact (randint_bounds 35 55 _ (by norm_num)).1
  · exact (randint_bounds 35 55 _ (by norm_num)).2
  · exact length_cast_lt_of_le_29 _ _ (generate_entities_length_le _ _ _ _)
      ((randint_bounds 35 55 _ (by norm_num)).1)

/-- C10 witness: concrete Deep run with one platform and the zero stream. -/
theorem c10_deep_count_exceeds_entities_witness :
    ((generate_ai_analysis "https://example.com" deepDepth ["Claude"]
        rngZero).get (by decide)).entities.length ≤ 29 ∧
    35 ≤ ((generate_ai_analysis "https://example.com" deepDepth ["Claude"]
        rngZero).get (by decide)).entity_count ∧
    ((generate_ai_analysis "https://example.com" deepDepth ["Claude"]
        rngZero).get (by decide)).entity_count ≤ 55 ∧
    (((generate_ai_analysis "https://example.com" deepDepth ["Claude"]
        rngZero).get (by decide)).entities.length : Int)
      < ((generate_ai_analysis "https://example.com" deepDepth ["Claude"]
        rngZero).get (by decide)).entity_count :=
  c10_deep_count_exceeds_entities "https://example.com" ["Claude"] rngZero
    _ ((Option.some_get (by decide)).symm)

/-! ### Claim C2 -/

lemma randint_within (a b lo hi : Int) (r : Rng) (h1 : lo ≤ a) (h2 : a ≤ b)
    (h3 : b ≤ hi) : lo ≤ (randint a b r).1 ∧ (randint a b r).1 ≤ hi := by
  have := randint_bounds a b r h2
  exact ⟨by omega, by omega⟩

/-- C2: for every url, depth and platform list accepted by
`generate_ai_analysis`, every declared numeric score of the result
(`ai_visibility_score`, `entity_score`, `schema_score`, `sge_score`,
`ai_confidence`, `improvement_potential`, each platform score, each
prediction score) lies within `[0, 100]`, and every entity confidence and
relevance lies within `[0, 1]` (`[0, 1000]` in milli units). -/
theorem c2_generate_scores_within_bounds (url depth : String)
    (platforms : List String) (r : Rng) (res : AnalysisResult)
    (h : generate_ai_analysis url depth platforms r = some res) :
    (0 ≤ res.ai_visibility_score ∧ res.ai_visibility_score ≤ 100) ∧
    (0 ≤ res.entity_score ∧ res.entity_score ≤ 100) ∧
    (0 ≤ res.schema_score ∧ res.schema_score ≤ 100) ∧
    (0 ≤ res.sge_score ∧ res.sge_score ≤ 100) ∧
    (0 ≤ res.ai_confidence ∧ res.ai_confidence ≤ 100) ∧
    (0 ≤ res.improvement_potential ∧ res.improvement_potential ≤ 100) ∧
    (∀ q ∈ res.platform_scores, 0 ≤ q.2 ∧ q.2 ≤ 100) ∧
    (0 ≤ res.predictions.days30 ∧ res.predictions.days30 ≤ 100) ∧
    (0 ≤ res.predictions.days60 ∧ res.predictions.days60 ≤ 100) ∧
    (0 ≤ res.predictions.days90 ∧ res.predictions.days90 ≤ 100) ∧
    (0 ≤ res.predictions.confidence ∧ res.predictions.confidence ≤ 100) ∧
    (∀ e ∈ res.entities,
      0 ≤ e.confidence ∧ e.confidence ≤ 1000 ∧
      0 ≤ e.relevance ∧ e.relevance ≤ 1000) := by
  obtain ⟨cfg, hfind, rfl⟩ := generate_eq_some h
  obtain ⟨⟨he1, he2, he3⟩, ⟨hs1, hs2, hs3⟩, ⟨hc1, hc2, hc3⟩⟩ :=
    depth_config_facts cfg (List.mem_of_find?_eq_some hfind)
  have hbase := randint_bounds 45 75 r (by norm_num)
  have hec := randint_bounds cfg.entities.1 cfg.entities.2
    (randint 45 75 r).2 he2
  have hes := randint_bounds cfg.entity_score.1 cfg.entity_score.2
    (randint cfg.entities.1 cfg.entities.2 (randint 45 75 r).2).2 hs2
  have hss := randint_bounds cfg.schema_score.1 cfg.schema_score.2
    (randint cfg.entity_score.1 cfg.entity_score.2
      (randint cfg.entities.1 cfg.entities.2 (randint 45 75 r).2).2).2 hc2
  have hpred := predict_bounds (randint 45 75 r).1
    (randint cfg.entities.1 cfg.entities.2 (randint 45 75 r).2).1
    (randint cfg.schema_score.1 cfg.schema_score.2
      (randint cfg.entity_score.1 cfg.entity_score.2
        (randint cfg.entities.1 cfg.entities.2 (randint 45 75 r).2).2).2).1
    (analyze_content_structure
      (generate_entities
        (randint cfg.entities.1 cfg.entities.2 (randint 45 75 r).2).1 depth
        (detect_website_type url (pyDomain url))
        (platformLoop (randint 45 75 r).1 platforms
          (randint cfg.schema_score.1 cfg.schema_score.2
            (randint cfg.entity_score.1 cfg.entity_score.2
              (randint cfg.entities.1 cfg.entities.2
                (randint 45 75 r).2).2).2).2).2).2).2
    hbase.1 hbase.2 (by omega) (by omega) (by omega) (by omega)
  simp only [buildResult]
  refine ⟨⟨by omega, by omega⟩, ⟨by omega, by omega⟩, ⟨by omega, by omega⟩,
    ?_, ?_, ?_, ?_, ?_, ?_, ?_, ?_, ?_⟩
  · exact randint_within _ _ 0 100 _ (by norm_num) (by norm_num)
      (by norm_num)
  · exact entityConfidenceTimes100_bounds _
      (fun e he => ⟨(generate_entities_props _ _ _ _ e he).1,
        (generate_entities_props _ _ _ _ e he).2.1⟩)
  · exact randint_within _ _ 0 100 _ (by norm_num) (by norm_num)
      (by norm_num)
  · intro q hq
    have hq2 := platformLoop_mem_bounds _ _ _ q hq
    exact ⟨by omega, hq2.2⟩
  · exact hpred.1
  · exact hpred.2.1
  · exact hpred.2.2.1
  · exact hpred.2.2.2
  · intro e he
    obtain ⟨a1, a2, a3, a4, _⟩ := generate_entities_props _ _ _ _ e he
    exact ⟨by omega, by omega, by omega, by omega⟩

/-- C2 witness: the visibility-score bounds on a concrete Basic run. -/
theorem c2_generate_scores_within_bounds_witness :
    0 ≤ ((generate_ai_analysis "https://example.com" basicDepth ["ChatGPT"]
        rngZero).get (by decide)).ai_visibility_score ∧
    ((generate_ai_analysis "https://example.com" basicDepth ["ChatGPT"]
        rngZero).get (by decide)).ai_visibility_score ≤ 100 :=
  (c2_generate_scores_within_bounds "https://example.com" basicDepth
    ["ChatGPT"] rngZero _ ((Option.some_get (by decide)).symm)).1
